import Mathlib

/-!
Shallow embedding of the progress reconciliation protocol of
`src/modules/MCQ/auth_and_progress.py` (functions `_normalize_progress`,
`_fetch_server_progress`, `load_progress`, `save_progress`) and of the
session answer bookkeeping `_update_progress` of `src/modules/MCQ/app.py`.

Modelling conventions:
* Python dict-shaped progress rows become the structure `ProgressSnapshot`
  with integer counters and `List String` id fields (the Python code stores
  lists and converts them to `set(...)` at every use).
* `st.session_state` is the explicit `SessionState` record
  (`progress_loaded`, `progress_baseline`, `progress`).
* The network is an oracle `Env`: the current user id (None when not
  authenticated; Python also treats the empty string as falsy, which
  `uidMissing` reproduces), the outcome of each `_fetch_server_progress`
  call (`Except.error` models a raised exception, `Except.ok row` a reply),
  and whether the `upsert(...).execute()` call succeeds.
* A Python `raise RuntimeError(msg)` escaping the function is `Except.error
  msg`; a normal return is `Except.ok` of a `SaveOutcome` recording the new
  session state, the remote reads/writes performed, the warnings emitted and
  the Python return value (`ret`, which is `None` for `save_progress` since
  the function has no return statement).
* Supabase configuration (`get_supabase`) is assumed available, as the spec
  scopes configuration and the auth lifecycle out of the core.
-/

/-- Progress record for one user: counters plus id lists, as in the Python
dicts handled by `auth_and_progress.py`. -/
structure ProgressSnapshot where
  attempts : Int
  correct : Int
  wrong_ids : List String
  seen_ids : List String
deriving DecidableEq, Repr

/-- The `DEFAULT_PROGRESS` dict of `auth_and_progress.py`. -/
def DEFAULT_PROGRESS : ProgressSnapshot :=
  { attempts := 0, correct := 0, wrong_ids := [], seen_ids := [] }

/-- A raw row as returned by the `progress` table: each field may be absent
(Python `p.get(...)` returning `None`). -/
structure RawRow where
  attempts : Option Int
  correct : Option Int
  wrong_ids : Option (List String)
  seen_ids : Option (List String)
deriving DecidableEq, Repr

/-- Python `x or 0` on an optional integer field (`None` and `0` both give `0`). -/
def orZero : Option Int → Int
  | none => 0
  | some n => n

/-- Python `x or []` on an optional list field. -/
def orNil : Option (List String) → List String
  | none => []
  | some l => l

/-- `_normalize_progress`: coerce a possibly missing / partially populated row
to the default shape. -/
def normalize_progress : Option RawRow → ProgressSnapshot
  | none => DEFAULT_PROGRESS
  | some r =>
    { attempts := orZero r.attempts
      correct := orZero r.correct
      wrong_ids := orNil r.wrong_ids
      seen_ids := orNil r.seen_ids }

/-- A fully populated raw row carrying exactly the fields of a snapshot, as
written by a previous `upsert` payload. -/
def toRaw (p : ProgressSnapshot) : RawRow :=
  { attempts := some p.attempts
    correct := some p.correct
    wrong_ids := some p.wrong_ids
    seen_ids := some p.seen_ids }

/-- The relevant `st.session_state` keys. -/
structure SessionState where
  progress_loaded : Bool
  progress_baseline : Option ProgressSnapshot
  progress : Option ProgressSnapshot
deriving DecidableEq, Repr

/-- Python `if not uid`: the user id is missing or the empty string. -/
def uidMissing : Option String → Bool
  | none => true
  | some s => s.isEmpty

/-- External-world oracle for one `save_progress` call: the current user id,
the result of the fetch performed by the implicit `load_progress` (when that
path runs), the result of the fetch performed by `save_progress` itself, and
whether the upsert succeeds. -/
structure Env where
  uid : Option String
  loadFetch : Except Unit (Option RawRow)
  saveFetch : Except Unit (Option RawRow)
  upsertOk : Bool

/-- Python string comparison: lexicographic on the code-point sequences. -/
def strLe (a b : String) : Prop :=
  a.data ≤ b.data

instance : DecidableRel strLe := fun a b =>
  inferInstanceAs (Decidable (a.data ≤ b.data))

instance : IsTrans String strLe :=
  ⟨fun _ _ _ h1 h2 => le_trans h1 h2⟩

instance : IsAntisymm String strLe := by
  refine ⟨fun a b h1 h2 => ?_⟩
  cases a
  cases b
  exact congrArg String.mk (le_antisymm h1 h2)

instance : IsTotal String strLe :=
  ⟨fun a b => le_total a.data b.data⟩

/-- Sort a finite set of id strings into a list, Python `sorted(...)`. -/
def sortedList (s : Finset String) : List String :=
  Quot.liftOn s.val (List.insertionSort strLe) (fun a b h =>
    List.eq_of_perm_of_sorted
      ((List.perm_insertionSort strLe a).trans
        ((Quotient.exact (Quot.sound h)).trans (List.perm_insertionSort strLe b).symm))
      (List.sorted_insertionSort strLe a) (List.sorted_insertionSort strLe b))

/-- Steps 2-4 of `save_progress`: deltas against the baseline, counter merge
with the fetched server row, and the set merges for `seen_ids` / `wrong_ids`.
Arguments are the fetched `server` row, the session `baseline`, and the
working copy `p` passed by the caller. -/
def save_merge (server baseline p : ProgressSnapshot) : ProgressSnapshot :=
  let d_attempts := max 0 (p.attempts - baseline.attempts)
  let d_correct := max 0 (p.correct - baseline.correct)
  let merged_attempts := server.attempts + d_attempts
  let merged_correct := server.correct + d_correct
  let local_seen := p.seen_ids.toFinset
  let local_wrong := p.wrong_ids.toFinset
  let server_seen := server.seen_ids.toFinset
  let server_wrong := server.wrong_ids.toFinset
  let merged_seen := sortedList (server_seen ∪ local_seen)
  let locally_corrected_ids := local_seen \ local_wrong
  let merged_wrong := sortedList ((server_wrong ∪ local_wrong) \ locally_corrected_ids)
  { attempts := merged_attempts
    correct := merged_correct
    wrong_ids := merged_wrong
    seen_ids := merged_seen }

/-- Result of a `load_progress` call that returned normally. -/
structure LoadOutcome where
  result : ProgressSnapshot
  newState : SessionState
deriving Repr

/-- `load_progress`: raise when unauthenticated, otherwise fetch (absorbing a
fetch failure into the default snapshot), store the result as the new
baseline and return it. -/
def load_progress (uid : Option String) (fetch : Except Unit (Option RawRow))
    (s : SessionState) : Except String LoadOutcome :=
  if uidMissing uid then
    Except.error "User not authenticated."
  else
    let server_p := match fetch with
      | Except.ok row => normalize_progress row
      | Except.error _ => DEFAULT_PROGRESS
    Except.ok { result := server_p
                newState := { s with progress_baseline := some server_p } }

/-- Observable outcome of a `save_progress` call that returned normally:
the session state on return, whether any remote read was attempted, the
payload handed to `upsert` (if reached), the new remote row (if the upsert
succeeded), the warnings emitted, and the Python return value. -/
structure SaveOutcome where
  newState : SessionState
  fetched : Bool
  attemptedUpsert : Option ProgressSnapshot
  wroteRemote : Option ProgressSnapshot
  warnedSkip : Bool
  warnedRead : Bool
  warnedWrite : Bool
  ret : Option ProgressSnapshot
deriving DecidableEq, Repr

/-- The guarded fetch of `save_progress`: the fetched row, normalized, and
whether the "could not read server progress" warning was emitted (on a
raised fetch the default row is substituted). -/
def fetchResult : Except Unit (Option RawRow) → ProgressSnapshot × Bool
  | Except.ok row => (normalize_progress row, false)
  | Except.error _ => (DEFAULT_PROGRESS, true)

/-- Python `st.session_state.get("progress_baseline") or server.copy()`. -/
def baselineOr (bl : Option ProgressSnapshot) (server : ProgressSnapshot) :
    ProgressSnapshot :=
  match bl with
  | some b => b
  | none => server

/-- `save_progress`: implicit load when the session has not loaded yet
(failure absorbed as the "Skipping save" warning), authentication check,
fetch (failure absorbed into the default row with a warning), merge, upsert
(failure absorbed with a warning and no re-baselining). The Python function
ends without a `return` statement, hence `ret := none` on every path. -/
def save_progress (env : Env) (s : SessionState) (p : ProgressSnapshot) :
    Except String SaveOutcome :=
  let step1 : Option SessionState :=
    if s.progress_loaded then some s
    else match load_progress env.uid env.loadFetch s with
      | Except.ok o =>
        some { o.newState with progress := some o.result, progress_loaded := true }
      | Except.error _ => none
  match step1 with
  | none =>
    Except.ok { newState := s, fetched := false, attemptedUpsert := none,
                wroteRemote := none, warnedSkip := true, warnedRead := false,
                warnedWrite := false, ret := none }
  | some s1 =>
    if uidMissing env.uid then
      Except.error "User not authenticated."
    else
      let fr := fetchResult env.saveFetch
      let server := fr.1
      let baseline := baselineOr s1.progress_baseline server
      let merged := save_merge server baseline p
      if env.upsertOk then
        Except.ok { newState := { s1 with progress_baseline := some merged },
                    fetched := true, attemptedUpsert := some merged,
                    wroteRemote := some merged, warnedSkip := false,
                    warnedRead := fr.2, warnedWrite := false, ret := none }
      else
        Except.ok { newState := s1, fetched := true, attemptedUpsert := some merged,
                    wroteRemote := none, warnedSkip := false, warnedRead := fr.2,
                    warnedWrite := true, ret := none }

/-- `_update_progress` of `app.py` (per-deck bookkeeping aside): bump the
counters and update the id sets for one answered question. Python stores
`list(set)` in an unspecified order; since every consumer converts the lists
back to sets, the model picks the sorted representative. -/
def update_progress (p : ProgressSnapshot) (qid : String) (correct : Bool) :
    ProgressSnapshot :=
  let seen := insert qid p.seen_ids.toFinset
  let wrong :=
    if correct then p.wrong_ids.toFinset.erase qid
    else insert qid p.wrong_ids.toFinset
  { attempts := p.attempts + 1
    correct := p.correct + (if correct then 1 else 0)
    wrong_ids := sortedList wrong
    seen_ids := sortedList seen }

/-- `save_progress` viewed as an optional outcome (`none` when it raised). -/
def saveOk (env : Env) (s : SessionState) (p : ProgressSnapshot) :
    Option SaveOutcome :=
  match save_progress env s p with
  | Except.ok o => some o
  | Except.error _ => none

/-- Membership in the sorted listing is membership in the set. -/
theorem mem_sortedList {s : Finset String} {a : String} :
    a ∈ sortedList s ↔ a ∈ s := by
  rcases s with ⟨m, hm⟩
  induction m using Quot.ind with
  | _ l =>
    show a ∈ List.insertionSort strLe l ↔ _
    rw [(List.perm_insertionSort strLe l).mem_iff]
    simp [Finset.mem_def]

/-- The sorted listing is sorted. -/
theorem sorted_sortedList (s : Finset String) :
    (sortedList s).Sorted strLe := by
  rcases s with ⟨m, hm⟩
  induction m using Quot.ind with
  | _ l => exact List.sorted_insertionSort strLe l

/-- Normalizing a fully populated row recovers the snapshot it was built from. -/
theorem normalize_toRaw (p : ProgressSnapshot) :
    normalize_progress (some (toRaw p)) = p := rfl

/-- The set of ids listed by `sortedList`. -/
theorem toFinset_sortedList (s : Finset String) :
    (sortedList s).toFinset = s := by
  ext a
  rw [List.mem_toFinset, mem_sortedList]

/-- Counter equation of the merge: attempts. -/
theorem save_merge_attempts (server baseline p : ProgressSnapshot) :
    (save_merge server baseline p).attempts =
      server.attempts + max 0 (p.attempts - baseline.attempts) := rfl

/-- Counter equation of the merge: correct. -/
theorem save_merge_correct (server baseline p : ProgressSnapshot) :
    (save_merge server baseline p).correct =
      server.correct + max 0 (p.correct - baseline.correct) := rfl

/-- List equation of the merge: seen ids. -/
theorem save_merge_seen_ids (server baseline p : ProgressSnapshot) :
    (save_merge server baseline p).seen_ids =
      sortedList (server.seen_ids.toFinset ∪ p.seen_ids.toFinset) := rfl

/-- List equation of the merge: wrong ids. -/
theorem save_merge_wrong_ids (server baseline p : ProgressSnapshot) :
    (save_merge server baseline p).wrong_ids =
      sortedList ((server.wrong_ids.toFinset ∪ p.wrong_ids.toFinset) \
        (p.seen_ids.toFinset \ p.wrong_ids.toFinset)) := rfl

/-- Membership in the merged seen list. -/
theorem mem_save_merge_seen {server baseline p : ProgressSnapshot} {y : String} :
    y ∈ (save_merge server baseline p).seen_ids ↔
      y ∈ server.seen_ids ∨ y ∈ p.seen_ids := by
  rw [save_merge_seen_ids, mem_sortedList, Finset.mem_union,
    List.mem_toFinset, List.mem_toFinset]

/-- Membership in the merged wrong list. -/
theorem mem_save_merge_wrong {server baseline p : ProgressSnapshot} {y : String} :
    y ∈ (save_merge server baseline p).wrong_ids ↔
      (y ∈ server.wrong_ids ∨ y ∈ p.wrong_ids) ∧
        ¬(y ∈ p.seen_ids ∧ y ∉ p.wrong_ids) := by
  rw [save_merge_wrong_ids, mem_sortedList, Finset.mem_sdiff, Finset.mem_union,
    Finset.mem_sdiff]
  simp only [List.mem_toFinset]

/-- Main path of `save_progress` with the session already loaded, a
successful fetch and a successful upsert. -/
theorem save_progress_loaded_ok_true (u : Option String) (hu : uidMissing u = false)
    (lf : Except Unit (Option RawRow)) (row : Option RawRow)
    (b : ProgressSnapshot) (pr : Option ProgressSnapshot) (p : ProgressSnapshot) :
    save_progress ⟨u, lf, Except.ok row, true⟩ ⟨true, some b, pr⟩ p =
      Except.ok { newState := ⟨true, some (save_merge (normalize_progress row) b p), pr⟩,
                  fetched := true,
                  attemptedUpsert := some (save_merge (normalize_progress row) b p),
                  wroteRemote := some (save_merge (normalize_progress row) b p),
                  warnedSkip := false, warnedRead := false, warnedWrite := false,
                  ret := none } := by
  simp [save_progress, hu, fetchResult, baselineOr]

/-- Main path of `save_progress` with the session already loaded, a
successful fetch and a failing upsert. -/
theorem save_progress_loaded_ok_false (u : Option String) (hu : uidMissing u = false)
    (lf : Except Unit (Option RawRow)) (row : Option RawRow)
    (b : ProgressSnapshot) (pr : Option ProgressSnapshot) (p : ProgressSnapshot) :
    save_progress ⟨u, lf, Except.ok row, false⟩ ⟨true, some b, pr⟩ p =
      Except.ok { newState := ⟨true, some b, pr⟩,
                  fetched := true,
                  attemptedUpsert := some (save_merge (normalize_progress row) b p),
                  wroteRemote := none,
                  warnedSkip := false, warnedRead := false, warnedWrite := true,
                  ret := none } := by
  simp [save_progress, hu, fetchResult, baselineOr]

/-- C1: cross-session additivity of the save merge. Sessions A and B both
have baseline R0; A saves against fetched remote R0 (the upsert succeeds,
writing M1), B then saves against fetched remote M1 with baseline still R0
(the upsert succeeds, writing M2). The final remote counters M2 equal R0
plus both sessions' clamped deltas, so neither contribution is lost. -/
theorem cross_session_additivity
    (u : Option String) (hu : uidMissing u = false)
    (lfA lfB : Except Unit (Option RawRow)) (prA prB : Option ProgressSnapshot)
    (R0 WA WB M1 M2 : ProgressSnapshot)
    (hA : (saveOk ⟨u, lfA, Except.ok (some (toRaw R0)), true⟩ ⟨true, some R0, prA⟩ WA).bind
        SaveOutcome.wroteRemote = some M1)
    (hB : (saveOk ⟨u, lfB, Except.ok (some (toRaw M1)), true⟩ ⟨true, some R0, prB⟩ WB).bind
        SaveOutcome.wroteRemote = some M2) :
    M2.attempts = R0.attempts + max 0 (WA.attempts - R0.attempts)
        + max 0 (WB.attempts - R0.attempts) ∧
    M2.correct = R0.correct + max 0 (WA.correct - R0.correct)
        + max 0 (WB.correct - R0.correct) := by
  unfold saveOk at hA hB
  rw [save_progress_loaded_ok_true u hu lfA (some (toRaw R0)) R0 prA WA] at hA
  rw [save_progress_loaded_ok_true u hu lfB (some (toRaw M1)) R0 prB WB] at hB
  simp only [normalize_toRaw, Option.some_bind, Option.some.injEq] at hA hB
  subst hA
  subst hB
  exact ⟨rfl, rfl⟩

/-- Witness for C1 at the concrete scenario of spec section 8: R0 has 10
attempts and 7 correct, session A adds one correct answer to question 2,
session B adds one wrong answer to question 4. -/
theorem cross_session_additivity_witness :
    (⟨12, 8, ["3", "4"], ["1", "2", "3", "4"]⟩ : ProgressSnapshot).attempts =
        (10 : Int) + max 0 (11 - 10) + max 0 (11 - 10) ∧
    (⟨12, 8, ["3", "4"], ["1", "2", "3", "4"]⟩ : ProgressSnapshot).correct =
        (7 : Int) + max 0 (8 - 7) + max 0 (7 - 7) :=
  cross_session_additivity (some "u") rfl (Except.error ()) (Except.error ()) none none
    ⟨10, 7, ["2", "3"], ["1", "2", "3"]⟩ ⟨11, 8, ["3"], ["1", "2", "3"]⟩
    ⟨11, 7, ["4"], ["4"]⟩ ⟨11, 8, ["3"], ["1", "2", "3"]⟩
    ⟨12, 8, ["3", "4"], ["1", "2", "3", "4"]⟩ (by decide) (by decide)

/-- C3: wrong-ids correction precedence. An id the working copy has seen and
does not mark wrong is absent from the merged wrong list (even when the
remote still lists it), and the merged wrong set is exactly the union of
both wrong sets minus the locally corrected ids. -/
theorem wrong_ids_correction_precedence (R B W : ProgressSnapshot) (X : String) :
    (X ∈ W.seen_ids → X ∉ W.wrong_ids → X ∉ (save_merge R B W).wrong_ids) ∧
    (save_merge R B W).wrong_ids.toFinset =
      (R.wrong_ids.toFinset ∪ W.wrong_ids.toFinset) \
        (W.seen_ids.toFinset \ W.wrong_ids.toFinset) := by
  constructor
  · intro hseen hwrong hmem
    rw [mem_save_merge_wrong] at hmem
    exact hmem.2 ⟨hseen, hwrong⟩
  · rw [save_merge_wrong_ids, toFinset_sortedList]

/-- Witness for C3: the remote marks question x wrong, the session saw x and
no longer marks it wrong, so the merge clears x from the wrong list. -/
theorem wrong_ids_correction_precedence_witness :
    "x" ∉ (save_merge ⟨1, 0, ["x"], ["x"]⟩ DEFAULT_PROGRESS ⟨1, 1, [], ["x"]⟩).wrong_ids :=
  (wrong_ids_correction_precedence ⟨1, 0, ["x"], ["x"]⟩ DEFAULT_PROGRESS
    ⟨1, 1, [], ["x"]⟩ "x").1 (by decide) (by decide)

/-- C4: merge monotonicity over the fetched remote. For every fetched remote
R, baseline B and working copy W — including baselines ahead of the working
copy — the merge never decreases the remote counters and never drops an id
from the remote seen set. -/
theorem merge_monotone_over_remote (R B W : ProgressSnapshot) :
    R.attempts ≤ (save_merge R B W).attempts ∧
    R.correct ≤ (save_merge R B W).correct ∧
    ∀ x, x ∈ R.seen_ids → x ∈ (save_merge R B W).seen_ids := by
  refine ⟨?_, ?_, fun x hx => ?_⟩
  · rw [save_merge_attempts]
    exact le_add_of_nonneg_right (le_max_left 0 _)
  · rw [save_merge_correct]
    exact le_add_of_nonneg_right (le_max_left 0 _)
  · rw [mem_save_merge_seen]
    exact Or.inl hx

/-- Witness for C4 with a baseline strictly ahead of the working copy (the
post-reset situation the spec names): the remote counters and seen set are
still preserved. -/
theorem merge_monotone_over_remote_witness :
    (10 : Int) ≤ (save_merge ⟨10, 7, [], ["x"]⟩ ⟨11, 9, [], []⟩ ⟨0, 0, [], []⟩).attempts ∧
    "x" ∈ (save_merge ⟨10, 7, [], ["x"]⟩ ⟨11, 9, [], []⟩ ⟨0, 0, [], []⟩).seen_ids :=
  ⟨(merge_monotone_over_remote ⟨10, 7, [], ["x"]⟩ ⟨11, 9, [], []⟩ ⟨0, 0, [], []⟩).1,
    (merge_monotone_over_remote ⟨10, 7, [], ["x"]⟩ ⟨11, 9, [], []⟩ ⟨0, 0, [], []⟩).2.2
      "x" (by decide)⟩

/-- C7: the merge preserves the invariant that every wrong id is a seen id,
assuming both the fetched remote and the working copy satisfy it. -/
theorem wrong_subset_seen_preserved (R B W : ProgressSnapshot)
    (hR : ∀ x, x ∈ R.wrong_ids → x ∈ R.seen_ids)
    (hW : ∀ x, x ∈ W.wrong_ids → x ∈ W.seen_ids) :
    ∀ x, x ∈ (save_merge R B W).wrong_ids → x ∈ (save_merge R B W).seen_ids := by
  intro x hx
  rw [mem_save_merge_wrong] at hx
  rw [mem_save_merge_seen]
  rcases hx.1 with h | h
  · exact Or.inl (hR x h)
  · exact Or.inr (hW x h)

/-- Witness for C7: the remote wrong id a and the local wrong id b both end
up inside the merged seen list. -/
theorem wrong_subset_seen_preserved_witness :
    "a" ∈ (save_merge ⟨1, 0, ["a"], ["a"]⟩ DEFAULT_PROGRESS ⟨1, 0, ["b"], ["b"]⟩).seen_ids :=
  wrong_subset_seen_preserved ⟨1, 0, ["a"], ["a"]⟩ DEFAULT_PROGRESS ⟨1, 0, ["b"], ["b"]⟩
    (by decide) (by decide) "a" (by decide)

/-- C8: the merge preserves the correct-at-most-attempts invariant under the
session discipline that the working copy dominates the baseline and gained
at most as many correct answers as attempts. -/
theorem correct_le_attempts_preserved (R B W : ProgressSnapshot)
    (hR : R.correct ≤ R.attempts)
    (h1 : B.attempts ≤ W.attempts) (h2 : B.correct ≤ W.correct)
    (h3 : W.correct - B.correct ≤ W.attempts - B.attempts) :
    (save_merge R B W).correct ≤ (save_merge R B W).attempts := by
  rw [save_merge_attempts, save_merge_correct]
  rw [max_eq_right (by omega : (0 : Int) ≤ W.attempts - B.attempts),
    max_eq_right (by omega : (0 : Int) ≤ W.correct - B.correct)]
  omega

/-- Witness for C8 at the concrete scenario of spec section 8. -/
theorem correct_le_attempts_preserved_witness :
    (save_merge ⟨10, 7, ["2", "3"], ["1", "2", "3"]⟩ ⟨10, 7, ["2", "3"], ["1", "2", "3"]⟩
      ⟨11, 8, ["3"], ["1", "2", "3"]⟩).correct ≤
    (save_merge ⟨10, 7, ["2", "3"], ["1", "2", "3"]⟩ ⟨10, 7, ["2", "3"], ["1", "2", "3"]⟩
      ⟨11, 8, ["3"], ["1", "2", "3"]⟩).attempts :=
  correct_le_attempts_preserved ⟨10, 7, ["2", "3"], ["1", "2", "3"]⟩
    ⟨10, 7, ["2", "3"], ["1", "2", "3"]⟩ ⟨11, 8, ["3"], ["1", "2", "3"]⟩
    (by decide) (by decide) (by decide) (by decide)

/-- Arithmetic core of the no-double-count property: once the baseline has
been advanced to merged counters computed from a fetch at least as large as
the old baseline, the next clamped delta is zero. -/
theorem clamp_zero_of_advanced {r b w : Int} (h : b ≤ r) :
    max 0 (w - (r + max 0 (w - b))) = 0 := by
  refine max_eq_left ?_
  have h1 := le_max_left (0 : Int) (w - b)
  have h2 := le_max_right (0 : Int) (w - b)
  generalize max (0 : Int) (w - b) = q at h1 h2 ⊢
  omega

/-- C2 (corrected): the claim as frozen fails when the fetched remote is
behind the baseline; this counterexample shows it. First save: fetched
remote R with 0 attempts, baseline B with 1 attempt, working copy W with 2
attempts; the upsert succeeds, so the baseline advances to the merged
snapshot M with 1 attempt. The immediately following save with the same W
and fetched remote M computes delta max 0 (2 - 1) = 1, not 0, and writes 2
attempts, not M.attempts = 1. -/
theorem no_double_count_cex :
    (saveOk ⟨some "u", Except.error (), Except.ok (some (toRaw ⟨0, 0, [], []⟩)), true⟩
        ⟨true, some ⟨1, 1, [], []⟩, none⟩ ⟨2, 1, [], []⟩).map
      (fun o => o.newState.progress_baseline) = some (some ⟨1, 0, [], []⟩) ∧
    (saveOk ⟨some "u", Except.error (), Except.ok (some (toRaw ⟨1, 0, [], []⟩)), true⟩
        ⟨true, some ⟨1, 0, [], []⟩, none⟩ ⟨2, 1, [], []⟩).bind
      SaveOutcome.attemptedUpsert = some ⟨2, 1, [], []⟩ ∧
    max 0 ((2 : Int) - 1) ≠ 0 ∧ (2 : Int) ≠ 1 := by decide

/-- C2 amended: no double count under single-session repeated save, provided
the first save's fetched remote counters are at least the baseline's (as
holds when the baseline came from an earlier read of the monotone remote
row). The first save (fetched remote R, baseline B, working copy W,
successful upsert) advances the baseline to some M; the immediately
following save with the same W and fetched remote M then computes zero
deltas and writes counters equal to M's. -/
theorem no_double_count_amended
    (u : Option String) (hu : uidMissing u = false)
    (lf1 lf2 : Except Unit (Option RawRow)) (pr : Option ProgressSnapshot) (ok2 : Bool)
    (R B W M M2 : ProgressSnapshot)
    (hRa : B.attempts ≤ R.attempts) (hRc : B.correct ≤ R.correct)
    (h1 : (saveOk ⟨u, lf1, Except.ok (some (toRaw R)), true⟩ ⟨true, some B, pr⟩ W).map
        (fun o => o.newState.progress_baseline) = some (some M))
    (h2 : (saveOk ⟨u, lf2, Except.ok (some (toRaw M)), ok2⟩ ⟨true, some M, pr⟩ W).bind
        SaveOutcome.attemptedUpsert = some M2) :
    max 0 (W.attempts - M.attempts) = 0 ∧ max 0 (W.correct - M.correct) = 0 ∧
    M2.attempts = M.attempts ∧ M2.correct = M.correct := by
  unfold saveOk at h1 h2
  rw [save_progress_loaded_ok_true u hu lf1 (some (toRaw R)) B pr W] at h1
  simp only [normalize_toRaw, Option.map_some', Option.some.injEq] at h1
  have hMa : M.attempts = R.attempts + max 0 (W.attempts - B.attempts) := by
    rw [← h1, save_merge_attempts]
  have hMc : M.correct = R.correct + max 0 (W.correct - B.correct) := by
    rw [← h1, save_merge_correct]
  have hda : max 0 (W.attempts - M.attempts) = 0 := by
    rw [hMa]; exact clamp_zero_of_advanced hRa
  have hdc : max 0 (W.correct - M.correct) = 0 := by
    rw [hMc]; exact clamp_zero_of_advanced hRc
  cases ok2 with
  | true =>
    rw [save_progress_loaded_ok_true u hu lf2 (some (toRaw M)) M pr W] at h2
    simp only [normalize_toRaw, Option.some_bind, Option.some.injEq] at h2
    subst h2
    refine ⟨hda, hdc, ?_, ?_⟩
    · rw [save_merge_attempts, hda, add_zero]
    · rw [save_merge_correct, hdc, add_zero]
  | false =>
    rw [save_progress_loaded_ok_false u hu lf2 (some (toRaw M)) M pr W] at h2
    simp only [normalize_toRaw, Option.some_bind, Option.some.injEq] at h2
    subst h2
    refine ⟨hda, hdc, ?_, ?_⟩
    · rw [save_merge_attempts, hda, add_zero]
    · rw [save_merge_correct, hdc, add_zero]

/-- Witness for the amended C2: after a first save from remote 10/7, baseline
10/7 and working copy 11/8, the second save computes zero deltas and keeps
the merged counters 11/8. -/
theorem no_double_count_amended_witness :
    max 0 ((11 : Int) - 11) = 0 ∧ max 0 ((8 : Int) - 8) = 0 ∧
    (⟨11, 8, ["3"], ["1", "2", "3"]⟩ : ProgressSnapshot).attempts =
      (⟨11, 8, ["3"], ["1", "2", "3"]⟩ : ProgressSnapshot).attempts ∧
    (⟨11, 8, ["3"], ["1", "2", "3"]⟩ : ProgressSnapshot).correct =
      (⟨11, 8, ["3"], ["1", "2", "3"]⟩ : ProgressSnapshot).correct :=
  no_double_count_amended (some "u") rfl (Except.error ()) (Except.error ()) none true
    ⟨10, 7, ["2", "3"], ["1", "2", "3"]⟩ ⟨10, 7, ["2", "3"], ["1", "2", "3"]⟩
    ⟨11, 8, ["3"], ["1", "2", "3"]⟩ ⟨11, 8, ["3"], ["1", "2", "3"]⟩
    ⟨11, 8, ["3"], ["1", "2", "3"]⟩
    (by decide) (by decide) (by decide) (by decide)

/-- Main path of `save_progress` (session loaded, authenticated, upsert
succeeds) for an arbitrary fetch result and stored baseline. -/
theorem save_progress_loaded_upsert_ok (u : Option String) (hu : uidMissing u = false)
    (lf sf : Except Unit (Option RawRow)) (bl pr : Option ProgressSnapshot)
    (p : ProgressSnapshot) :
    save_progress ⟨u, lf, sf, true⟩ ⟨true, bl, pr⟩ p =
      Except.ok { newState := ⟨true,
                    some (save_merge (fetchResult sf).1
                      (baselineOr bl (fetchResult sf).1) p), pr⟩,
                  fetched := true,
                  attemptedUpsert := some (save_merge (fetchResult sf).1
                    (baselineOr bl (fetchResult sf).1) p),
                  wroteRemote := some (save_merge (fetchResult sf).1
                    (baselineOr bl (fetchResult sf).1) p),
                  warnedSkip := false, warnedRead := (fetchResult sf).2,
                  warnedWrite := false, ret := none } := by
  simp [save_progress, hu]

/-- Main path of `save_progress` (session loaded, authenticated, upsert
fails) for an arbitrary fetch result and stored baseline. -/
theorem save_progress_loaded_upsert_fail (u : Option String) (hu : uidMissing u = false)
    (lf sf : Except Unit (Option RawRow)) (bl pr : Option ProgressSnapshot)
    (p : ProgressSnapshot) :
    save_progress ⟨u, lf, sf, false⟩ ⟨true, bl, pr⟩ p =
      Except.ok { newState := ⟨true, bl, pr⟩,
                  fetched := true,
                  attemptedUpsert := some (save_merge (fetchResult sf).1
                    (baselineOr bl (fetchResult sf).1) p),
                  wroteRemote := none,
                  warnedSkip := false, warnedRead := (fetchResult sf).2,
                  warnedWrite := true, ret := none } := by
  simp [save_progress, hu]

/-- With the session loaded but no valid user id, `save_progress` raises. -/
theorem save_progress_loaded_auth_error (u : Option String) (hu : uidMissing u = true)
    (lf sf : Except Unit (Option RawRow)) (ok : Bool) (bl pr : Option ProgressSnapshot)
    (p : ProgressSnapshot) :
    save_progress ⟨u, lf, sf, ok⟩ ⟨true, bl, pr⟩ p =
      Except.error "User not authenticated." := by
  simp [save_progress, hu]

/-- C5 (corrected): the claim as frozen fails when the save runs before any
load: the implicit load re-baselines to the freshly fetched remote before
the upsert, so a failing upsert does not leave the baseline "exactly as it
was before the save". Concrete input: baseline some (5,5), unloaded session,
remote row (7,6), upsert fails — the baseline after the call is some (7,6),
not some (5,5). -/
theorem baseline_atomicity_cex :
    (saveOk ⟨some "u", Except.ok (some (toRaw ⟨7, 6, [], []⟩)),
        Except.ok (some (toRaw ⟨7, 6, [], []⟩)), false⟩
        ⟨false, some ⟨5, 5, [], []⟩, none⟩ ⟨7, 6, [], []⟩).map
      (fun o => o.newState.progress_baseline) = some (some ⟨7, 6, [], []⟩) ∧
    some (⟨7, 6, [], []⟩ : ProgressSnapshot) ≠ some (⟨5, 5, [], []⟩ : ProgressSnapshot) := by
  decide

/-- C5 amended: baseline atomicity on write failure holds once the session
has loaded (the progress-loaded flag is set). Then a failing upsert leaves
the stored baseline exactly as it was before the call, and the baseline is
set to the merged snapshot — whose id lists are sorted and which carries no
per-deck field — exactly when the upsert succeeds. -/
theorem baseline_atomicity_amended
    (u : Option String) (lf sf : Except Unit (Option RawRow)) (ok : Bool)
    (bl pr : Option ProgressSnapshot) (p : ProgressSnapshot)
    (o : SaveOutcome) (m : ProgressSnapshot)
    (h : save_progress ⟨u, lf, sf, ok⟩ ⟨true, bl, pr⟩ p = Except.ok o)
    (hm : o.attemptedUpsert = some m) :
    (ok = false → o.newState.progress_baseline = bl) ∧
    (ok = true → o.newState.progress_baseline = some m) ∧
    List.Sorted strLe m.wrong_ids ∧ List.Sorted strLe m.seen_ids := by
  cases hu : uidMissing u with
  | true =>
    rw [save_progress_loaded_auth_error u hu lf sf ok bl pr p] at h
    exact Except.noConfusion h
  | false =>
    cases ok with
    | true =>
      rw [save_progress_loaded_upsert_ok u hu lf sf bl pr p] at h
      injection h with h
      subst h
      simp only [Option.some.injEq] at hm
      subst hm
      refine ⟨fun hc => (nomatch hc), fun _ => rfl, ?_, ?_⟩
      · rw [save_merge_wrong_ids]; exact sorted_sortedList _
      · rw [save_merge_seen_ids]; exact sorted_sortedList _
    | false =>
      rw [save_progress_loaded_upsert_fail u hu lf sf bl pr p] at h
      injection h with h
      subst h
      simp only [Option.some.injEq] at hm
      subst hm
      refine ⟨fun _ => rfl, fun hc => (nomatch hc), ?_, ?_⟩
      · rw [save_merge_wrong_ids]; exact sorted_sortedList _
      · rw [save_merge_seen_ids]; exact sorted_sortedList _

/-- Witness for the amended C5 at a concrete failing upsert: the baseline
some (5,5) is untouched, and the merged payload (7,6) was not installed. -/
theorem baseline_atomicity_amended_witness :
    (false = false →
      (some (⟨5, 5, [], []⟩ : ProgressSnapshot) : Option ProgressSnapshot) =
        some ⟨5, 5, [], []⟩) ∧
    (false = true →
      (some (⟨5, 5, [], []⟩ : ProgressSnapshot) : Option ProgressSnapshot) =
        some ⟨7, 6, [], []⟩) ∧
    List.Sorted strLe (⟨7, 6, [], []⟩ : ProgressSnapshot).wrong_ids ∧
    List.Sorted strLe (⟨7, 6, [], []⟩ : ProgressSnapshot).seen_ids :=
  baseline_atomicity_amended (some "u") (Except.error ())
    (Except.ok (some (toRaw ⟨7, 6, [], []⟩))) false (some ⟨5, 5, [], []⟩) none
    ⟨5, 5, [], []⟩ _ ⟨7, 6, [], []⟩ rfl rfl

/-- C6 (corrected): the claim as frozen fails for `save_progress` called
before any load with no valid user id: the implicit load raises, the
exception is swallowed, and the call returns normally with only the
"Skipping save" warning — no authentication error is surfaced even though
no valid user identifier is available. -/
theorem auth_error_surfacing_cex :
    uidMissing none = true ∧
    save_progress ⟨none, Except.error (), Except.error (), true⟩ ⟨false, none, none⟩
        ⟨3, 2, [], ["q"]⟩ =
      Except.ok { newState := ⟨false, none, none⟩, fetched := false,
                  attemptedUpsert := none, wroteRemote := none, warnedSkip := true,
                  warnedRead := false, warnedWrite := false, ret := none } :=
  ⟨rfl, rfl⟩

/-- C6 amended: `load_progress` raises exactly when no valid user identifier
is available; `save_progress` raises exactly when the session has already
loaded AND no valid user identifier is available (before a load, a missing
identifier is absorbed by the implicit-load guard instead). Every other
failure — remote read or write — is absorbed, so these calls otherwise
return normally. -/
theorem auth_error_exactly_amended :
    (∀ (uid : Option String) (f : Except Unit (Option RawRow)) (s : SessionState),
      (load_progress uid f s).isOk = false ↔ uidMissing uid = true) ∧
    (∀ (env : Env) (s : SessionState) (p : ProgressSnapshot),
      (save_progress env s p).isOk = false ↔
        s.progress_loaded = true ∧ uidMissing env.uid = true) := by
  constructor
  · intro uid f s
    cases hu : uidMissing uid <;>
      simp [load_progress, hu, Except.isOk, Except.toBool]
  · intro env s p
    obtain ⟨u, lf, sf, ok⟩ := env
    obtain ⟨pl, bl, pr⟩ := s
    cases pl <;> cases hu : uidMissing u <;> rcases lf with e | row <;>
      rcases sf with e2 | row2 <;> cases ok <;>
      simp [save_progress, load_progress, hu, Except.isOk, Except.toBool]

/-- Witness for the amended C6: with the session loaded and no user id, the
save call raises. -/
theorem auth_error_exactly_amended_witness :
    (save_progress ⟨none, Except.error (), Except.error (), true⟩ ⟨true, none, none⟩
      DEFAULT_PROGRESS).isOk = false :=
  (auth_error_exactly_amended.2 ⟨none, Except.error (), Except.error (), true⟩
    ⟨true, none, none⟩ DEFAULT_PROGRESS).mpr ⟨rfl, rfl⟩

/-- C9 (corrected): the claim as frozen fails because the Python function
has no return statement: at the spec's own first-ever-save scenario (empty
remote, one correct answer on question 5) the call computes and upserts the
merged snapshot (1, 1, seen 5) yet returns None, not the merged snapshot. -/
theorem save_returns_merged_cex :
    (saveOk ⟨some "u", Except.error (), Except.ok (some (toRaw DEFAULT_PROGRESS)), true⟩
        ⟨true, some DEFAULT_PROGRESS, none⟩ ⟨1, 1, [], ["5"]⟩).map SaveOutcome.ret
      = some none ∧
    (saveOk ⟨some "u", Except.error (), Except.ok (some (toRaw DEFAULT_PROGRESS)), true⟩
        ⟨true, some DEFAULT_PROGRESS, none⟩ ⟨1, 1, [], ["5"]⟩).map
      SaveOutcome.attemptedUpsert = some (some ⟨1, 1, [], ["5"]⟩) ∧
    (none : Option ProgressSnapshot) ≠ some ⟨1, 1, [], ["5"]⟩ := by
  decide

/-- C9 amended: every normal return of `save_progress` carries the Python
return value None — the merged snapshot is computed, upserted and (on
success) installed as the new baseline, but never returned, on upsert
success and failure alike. -/
theorem save_returns_none_amended (env : Env) (s : SessionState) (p : ProgressSnapshot)
    (o : SaveOutcome) (h : save_progress env s p = Except.ok o) : o.ret = none := by
  obtain ⟨u, lf, sf, ok⟩ := env
  obtain ⟨pl, bl, pr⟩ := s
  cases pl <;> cases hu : uidMissing u <;> rcases lf with e | row <;>
    rcases sf with e2 | row2 <;> cases ok <;>
    simp only [save_progress, load_progress, hu, Bool.false_eq_true, Bool.true_eq_false,
      if_true, if_false, Except.ok.injEq] at h <;>
    first
      | exact Except.noConfusion h
      | (subst h; rfl)

/-- Witness for the amended C9 at the first-ever-save scenario. -/
theorem save_returns_none_amended_witness :
    ({ newState := ⟨true, some ⟨1, 1, [], ["5"]⟩, none⟩, fetched := true,
       attemptedUpsert := some ⟨1, 1, [], ["5"]⟩, wroteRemote := some ⟨1, 1, [], ["5"]⟩,
       warnedSkip := false, warnedRead := false, warnedWrite := false,
       ret := none } : SaveOutcome).ret = none :=
  save_returns_none_amended
    ⟨some "u", Except.error (), Except.ok (some (toRaw DEFAULT_PROGRESS)), true⟩
    ⟨true, some DEFAULT_PROGRESS, none⟩ ⟨1, 1, [], ["5"]⟩ _ rfl

/-- C10: a save before any successful load whose implicit load raises emits
the "Skipping save" warning, performs no remote read or write, leaves the
whole session state (the baseline included) unchanged, and returns normally
(with Python return value None) instead of raising. -/
theorem save_before_load_skip (env : Env) (s : SessionState) (p : ProgressSnapshot)
    (hl : s.progress_loaded = false) (e : String)
    (hfail : load_progress env.uid env.loadFetch s = Except.error e) :
    save_progress env s p =
      Except.ok { newState := s, fetched := false, attemptedUpsert := none,
                  wroteRemote := none, warnedSkip := true, warnedRead := false,
                  warnedWrite := false, ret := none } := by
  simp [save_progress, hl, hfail]

/-- Witness for C10: unauthenticated save before load returns the skip
outcome. -/
theorem save_before_load_skip_witness :
    save_progress ⟨none, Except.ok none, Except.ok none, true⟩ ⟨false, some ⟨2, 1, [], []⟩, none⟩
        ⟨4, 2, [], ["a"]⟩ =
      Except.ok { newState := ⟨false, some ⟨2, 1, [], []⟩, none⟩, fetched := false,
                  attemptedUpsert := none, wroteRemote := none, warnedSkip := true,
                  warnedRead := false, warnedWrite := false, ret := none } :=
  save_before_load_skip ⟨none, Except.ok none, Except.ok none, true⟩
    ⟨false, some ⟨2, 1, [], []⟩, none⟩ ⟨4, 2, [], ["a"]⟩ rfl
    "User not authenticated." rfl

/-- One answered question keeps the session discipline assumed by the
correct-at-most-attempts preservation property: relative to any baseline the
working copy already dominates, `_update_progress` adds one attempt and at
most one correct answer. -/
theorem update_progress_discipline (B p : ProgressSnapshot) (q : String) (c : Bool)
    (h1 : B.attempts ≤ p.attempts) (h2 : B.correct ≤ p.correct)
    (h3 : p.correct - B.correct ≤ p.attempts - B.attempts) :
    B.attempts ≤ (update_progress p q c).attempts ∧
    B.correct ≤ (update_progress p q c).correct ∧
    (update_progress p q c).correct - B.correct ≤
      (update_progress p q c).attempts - B.attempts := by
  unfold update_progress
  cases c <;> simp <;> omega
